import Mathlib

/-
Verification development for the capybara-pet simulation (src/unnamed/part_000
and src/types.ts).  The program is a single-creature 2D simulation: a per-tick
physics and collision resolver, a behavioral state machine, a stat-decay model
and a debounced thought gate.  JavaScript numbers are embedded as exact
rationals, the pressed-key set as a list of key strings, and the sequence of
state-setter calls of a tick as sequential assignments in the order the source
issues them (the classification write at source lines 129-131 is issued after
the consumption writes of lines 106-127 and compares against the pre-tick
state captured by the callback).
-/

namespace CapySim

/-- Behavioral states of the creature, from src/types.ts (enum CapyState). -/
inductive CapyState where
  | IDLE
  | WALKING
  | SWIMMING
  | EATING
  | SLEEPING
  | MEDITATING
deriving DecidableEq

/-- Facing direction, from src/unnamed/part_000 line 15. -/
inductive Direction where
  | left
  | right
deriving DecidableEq

/-- World position, from src/types.ts (type Position). -/
structure Position where
  x : ℚ
  y : ℚ
deriving DecidableEq

/-- Vital statistics, from src/types.ts (type Stats), each meant to be in [0,100]. -/
structure Stats where
  hunger : ℚ
  chill : ℚ
  energy : ℚ
deriving DecidableEq

/-- Food kinds, from src/types.ts (type FoodItem, field type). -/
inductive FoodType where
  | ORANGE
  | WATERMELON
deriving DecidableEq

/-- A food object, from src/types.ts (type FoodItem). -/
structure FoodItem where
  id : String
  x : ℚ
  y : ℚ
  type : FoodType
deriving DecidableEq

/-- A generated thought, from src/types.ts (type Thought). -/
structure Thought where
  text : String
  timestamp : ℤ
deriving DecidableEq

/-- The React component state of App plus the two refs the core logic reads and
writes (src lines 14-24): position, direction, behavioral state, stats, food
collection, current thought, busy flag, and the last thought-dispatch time. -/
structure AppState where
  pos : Position
  direction : Direction
  capyState : CapyState
  stats : Stats
  food : List FoodItem
  thought : Option Thought
  isAiLoading : Bool
  lastAiCallTime : ℤ
deriving DecidableEq

/-- MOVEMENT_SPEED = 3 pixels per tick (src line 7). -/
def MOVEMENT_SPEED : ℚ := 3

/-- API_DEBOUNCE_MS = 5000 (src line 10). -/
def API_DEBOUNCE_MS : ℤ := 5000

/-- WATER_LEVEL_Y = window.innerHeight * 0.7 (src line 9), parametrized by the
world height. -/
def waterLevelY (worldH : ℚ) : ℚ := worldH * (7/10)

/-- Membership test of the pressed-key set (keysPressed.current.has, src
lines 69-76), with the live set embedded as a list of key strings. -/
def hasKey (keys : List String) (k : String) : Bool := keys.contains k

/-- The initial component state (src lines 14-24): centered position, facing
right, Idle, stats hunger 80 / chill 50 / energy 90, no food, no thought, not
busy, last dispatch time 0. -/
def initialState (worldW worldH : ℚ) : AppState :=
  { pos := { x := worldW / 2, y := worldH / 2 }
    direction := Direction.right
    capyState := CapyState.IDLE
    stats := { hunger := 80, chill := 50, energy := 90 }
    food := []
    thought := none
    isAiLoading := false
    lastAiCallTime := 0 }

/-- Hunger decay of updateStats (src line 142): hunger = max(0, hunger - 0.02). -/
def hungerStep (prev : Stats) : ℚ := max 0 (prev.hunger - 1/50)

/-- Energy rule of updateStats (src lines 145-146): +0.1 when Sleeping (capped
at 100), -0.01 when Walking or Swimming (floored at 0), else unchanged. -/
def energyStep (c : CapyState) (prev : Stats) : ℚ :=
  if c = CapyState.SLEEPING then min 100 (prev.energy + 1/10)
  else if c = CapyState.WALKING ∨ c = CapyState.SWIMMING then max 0 (prev.energy - 1/100)
  else prev.energy

/-- First chill rule (src line 149): +0.1 capped at 100 when Meditating. -/
def chillRule1 (c : CapyState) (prev : Stats) : ℚ :=
  if c = CapyState.MEDITATING then min 100 (prev.chill + 1/10) else prev.chill

/-- Second chill rule (src line 150): +0.05 capped at 100 when Swimming,
applied to the result of the first rule. -/
def chillRule2 (c : CapyState) (prev : Stats) : ℚ :=
  if c = CapyState.SWIMMING then min 100 (chillRule1 c prev + 1/20) else chillRule1 c prev

/-- Third chill rule (src line 151): -0.05 floored at 0 when the hunger value
already decayed this tick (the local variable hunger of src line 142) is below
20, applied to the result of the second rule. -/
def chillStep (c : CapyState) (prev : Stats) : ℚ :=
  if hungerStep prev < 20 then max 0 (chillRule2 c prev - 1/20) else chillRule2 c prev

/-- updateStats (src lines 137-155): one tick of the stat model, reading the
behavioral state current at the tick. -/
def updateStats (c : CapyState) (prev : Stats) : Stats :=
  { hunger := hungerStep prev, chill := chillStep c prev, energy := energyStep c prev }

/-- The locked behavioral states (src lines 68 and 95): Sleeping, Meditating
and Eating suppress movement and automatic reclassification. -/
def lockedState (c : CapyState) : Prop :=
  c = CapyState.SLEEPING ∨ c = CapyState.MEDITATING ∨ c = CapyState.EATING

instance (c : CapyState) : Decidable (lockedState c) := by
  unfold lockedState
  infer_instance

/-- Output of the movement block of updatePhysics (src lines 62-85): the new
coordinates, whether a horizontal key marked movement, and the new facing. -/
structure MoveOut where
  newX : ℚ
  newY : ℚ
  isMoving : Bool
  newDirection : Direction
deriving DecidableEq

/-- The movement block before clamping (src lines 62-81): when the state is
locked nothing moves; otherwise the four key tests apply their displacements
in source order, the horizontal ones also setting facing and isMoving. -/
def movePre (keys : List String) (s : AppState) : MoveOut :=
  let base : MoveOut :=
    { newX := s.pos.x, newY := s.pos.y, isMoving := false, newDirection := s.direction }
  if lockedState s.capyState then base
  else
    let m1 := if hasKey keys ("ArrowUp") || hasKey keys ("w") then
        { base with newY := base.newY - MOVEMENT_SPEED } else base
    let m2 := if hasKey keys ("ArrowDown") || hasKey keys ("s") then
        { m1 with newY := m1.newY + MOVEMENT_SPEED } else m1
    let m3 := if hasKey keys ("ArrowLeft") || hasKey keys ("a") then
        { m2 with newX := m2.newX - MOVEMENT_SPEED, newDirection := Direction.left,
                  isMoving := true } else m2
    if hasKey keys ("ArrowRight") || hasKey keys ("d") then
      { m3 with newX := m3.newX + MOVEMENT_SPEED, newDirection := Direction.right,
                isMoving := true } else m3

/-- The movement block with the boundary clamp of src lines 84-85 applied:
x into [50, worldW - 50], y into [50, worldH - 50]. -/
def moveStep (worldW worldH : ℚ) (keys : List String) (s : AppState) : MoveOut :=
  let m := movePre keys s
  { m with newX := max 50 (min (worldW - 50) m.newX),
           newY := max 50 (min (worldH - 50) m.newY) }

/-- State classification of src lines 91-103: unchanged when locked, else
Swimming in water, else Walking when a horizontal key moved, else Idle. -/
def nextStateOf (c : CapyState) (isInWater isMoving : Bool) : CapyState :=
  if lockedState c then c
  else if isInWater then CapyState.SWIMMING
  else if isMoving then CapyState.WALKING
  else CapyState.IDLE

/-- The collision test of src lines 108-112.  The source tests
Math.sqrt(dx*dx + dy*dy) < 50; over nonnegative reals that is equivalent to
dx*dx + dy*dy < 2500, the form used here over exact rationals. -/
def nearFood (newX newY : ℚ) (f : FoodItem) : Bool :=
  decide ((f.x - newX) * (f.x - newX) + (f.y - newY) * (f.y - newY) < 2500)

/-- The stat boost of a consumed item (src lines 115-119): hunger +30 for a
watermelon else +15, energy +5, both capped at 100; chill untouched. -/
def eatStats (f : FoodItem) (s : Stats) : Stats :=
  { s with
    hunger := min 100 (s.hunger + (if f.type = FoodType.WATERMELON then 30 else 15)),
    energy := min 100 (s.energy + 5) }

/-- A deferred state write registered with setTimeout (src line 120): its
delay in milliseconds and the state value its callback will assign. -/
structure DeferredUnlock where
  delayMs : ℕ
  target : CapyState
deriving DecidableEq

/-- Firing a deferred unlock (the callback of src line 120): the callback is
setCapyState of a plain value, so it overwrites whatever the current state is,
ignoring it. -/
def fireUnlock (t : DeferredUnlock) (_current : CapyState) : CapyState := t.target

/-- The deferred unlock registered by src line 120: delay 1000ms, target
Swimming when the tick resolved into water, else Idle. -/
def unlockFor (isInWater : Bool) : DeferredUnlock :=
  { delayMs := 1000, target := if isInWater then CapyState.SWIMMING else CapyState.IDLE }

/-- Synchronous prefix of triggerThought (src lines 42-52, up to the await):
returns (now - lastAiCallTime < 5000 and not forced) unchanged, else sets the
busy flag, records the dispatch time, and reports the state tag sent to the
generator (forcedState, else the current behavioral state). -/
def triggerThoughtStart (forcedState : Option CapyState) (now : ℤ) (s : AppState) :
    AppState × Option CapyState :=
  if now - s.lastAiCallTime < API_DEBOUNCE_MS ∧ forcedState = none then (s, none)
  else
    ({ s with isAiLoading := true, lastAiCallTime := now },
     some (forcedState.getD s.capyState))

/-- Modelled from the spec: the outcome of one call to the external text
generator generateCapybaraThought (services/geminiService is not under src).
The spec says the collaborator is asynchronous and may fail, so an outcome is
either a produced string or a failure. -/
def GenOutcome : Type := Except Unit String

/-- Continuation of triggerThought after the awaited generation call (src
lines 53-54).  On success the thought is replaced and the busy flag cleared;
on a rejected call the async function aborts at the await, so neither of the
two remaining statements runs (the source has no try/catch), leaving the
state as it was after the synchronous prefix. -/
def triggerThoughtFinish (now : ℤ) (result : GenOutcome) (s : AppState) : AppState :=
  match result with
  | Except.ok text => { s with thought := some { text := text, timestamp := now },
                               isAiLoading := false }
  | Except.error _ => s

/-- Accumulator of the food-collision pass of src lines 106-127: the app
state being mutated plus the setTimeout registrations and thought-request
tags issued during the pass. -/
structure TickAcc where
  st : AppState
  timers : List DeferredUnlock
  dispatched : List CapyState

/-- The consumption effects of one matched food item, in source order (src
lines 113-122): state to Eating, stat boost, deferred unlock scheduled with
delay 1000 and target Swimming or Idle by inWater, forced thought request. -/
def eatEffect (now : ℤ) (isInWater : Bool) (f : FoodItem) (acc : TickAcc) : TickAcc :=
  let st1 := { acc.st with capyState := CapyState.EATING, stats := eatStats f acc.st.stats }
  let tt := triggerThoughtStart (some CapyState.EATING) now st1
  { st := tt.1,
    timers := acc.timers ++ [unlockFor isInWater],
    dispatched := acc.dispatched ++ tt.2.toList }

/-- The filter pass of src lines 107-125: items near the resolved position
are dropped and their effects applied in collection order; the rest are kept
in order. -/
def consumeAll (near : FoodItem → Bool) (step : FoodItem → TickAcc → TickAcc) :
    List FoodItem → TickAcc → List FoodItem × TickAcc
  | [], acc => ([], acc)
  | f :: fs, acc =>
    if near f then consumeAll near step fs (step f acc)
    else
      let r := consumeAll near step fs acc
      (f :: r.1, r.2)

/-- The position resolved by the movement block of the tick, after clamping. -/
def resolvedPos (worldW worldH : ℚ) (keys : List String) (s : AppState) : Position :=
  { x := (moveStep worldW worldH keys s).newX, y := (moveStep worldW worldH keys s).newY }

/-- isInWater of src line 92: the resolved y is beyond the water line. -/
def inWaterAfterMove (worldW worldH : ℚ) (keys : List String) (s : AppState) : Bool :=
  decide ((resolvedPos worldW worldH keys s).y > waterLevelY worldH)

/-- The collision predicate of the tick, at the resolved position. -/
def nearAfterMove (worldW worldH : ℚ) (keys : List String) (s : AppState)
    (f : FoodItem) : Bool :=
  nearFood (resolvedPos worldW worldH keys s).x (resolvedPos worldW worldH keys s).y f

/-- The physics-derived candidate state of the tick (nextState, src
lines 91-103). -/
def candidateState (worldW worldH : ℚ) (keys : List String) (s : AppState) : CapyState :=
  nextStateOf s.capyState (inWaterAfterMove worldW worldH keys s)
    (moveStep worldW worldH keys s).isMoving

/-- Result of one call to updatePhysics: the new app state plus the timers
and thought requests registered during the tick. -/
structure TickOut where
  state : AppState
  timers : List DeferredUnlock
  dispatched : List CapyState

/-- updatePhysics (src lines 60-135), embedded with the state-setter calls
applied sequentially in the order the source issues them: movement and clamp
(62-85), direction write (88), candidate classification (91-103), food pass
with its per-item effects (106-127), then the guarded classification write of
lines 129-131, which compares the candidate against the pre-tick state
captured by the callback and is issued after the food pass, and finally the
position write (133). -/
def updatePhysics (worldW worldH : ℚ) (keys : List String) (now : ℤ) (s : AppState) :
    TickOut :=
  let m := moveStep worldW worldH keys s
  let isInWater := inWaterAfterMove worldW worldH keys s
  let nextState := candidateState worldW worldH keys s
  let acc0 : TickAcc := { st := { s with direction := m.newDirection },
                          timers := [], dispatched := [] }
  let r := consumeAll (nearAfterMove worldW worldH keys s) (eatEffect now isInWater)
      s.food acc0
  let st1 := { r.2.st with food := r.1 }
  let st2 := if nextState ≠ s.capyState then { st1 with capyState := nextState } else st1
  { state := { st2 with pos := { x := m.newX, y := m.newY } },
    timers := r.2.timers,
    dispatched := r.2.dispatched }

/-- The chill update exactly as claim C4 words it: all applicable
contributions summed onto the previous committed chill, the hunger threshold
read from the previous committed hunger, and one single clamp to [0,100] at
the end.  Stated for comparison with chillStep, which is the source
translation. -/
def chillClaimC4 (c : CapyState) (prev : Stats) : ℚ :=
  max 0 (min 100 (prev.chill
    + (if c = CapyState.MEDITATING then 1/10 else 0)
    + (if c = CapyState.SWIMMING then 1/20 else 0)
    - (if prev.hunger < 20 then 1/20 else 0)))

/-- The food pass as a plain left fold of the per-item effects, used to state
what consumeAll does to the accumulator. -/
def eatFold (now : ℤ) (w : Bool) (l : List FoodItem) (acc : TickAcc) : TickAcc :=
  l.foldl (fun a f => eatEffect now w f a) acc

theorem eatEffect_eq (now : ℤ) (w : Bool) (f : FoodItem) (acc : TickAcc) :
    eatEffect now w f acc =
      { st := { acc.st with capyState := CapyState.EATING,
                            stats := eatStats f acc.st.stats,
                            isAiLoading := true,
                            lastAiCallTime := now },
        timers := acc.timers ++ [unlockFor w],
        dispatched := acc.dispatched ++ [CapyState.EATING] } := by
  simp [eatEffect, triggerThoughtStart]

theorem eatFold_st_stats (now : ℤ) (w : Bool) (l : List FoodItem) (acc : TickAcc) :
    (eatFold now w l acc).st.stats = l.foldl (fun st f => eatStats f st) acc.st.stats := by
  induction l generalizing acc with
  | nil => rfl
  | cons f fs ih =>
    show (eatFold now w fs (eatEffect now w f acc)).st.stats = _
    rw [ih, eatEffect_eq]
    rfl

theorem eatFold_st_capyState (now : ℤ) (w : Bool) (l : List FoodItem) (acc : TickAcc) :
    (eatFold now w l acc).st.capyState =
      if l.isEmpty then acc.st.capyState else CapyState.EATING := by
  induction l generalizing acc with
  | nil => rfl
  | cons f fs ih =>
    show (eatFold now w fs (eatEffect now w f acc)).st.capyState = _
    rw [ih, eatEffect_eq]
    simp

theorem eatFold_st_direction (now : ℤ) (w : Bool) (l : List FoodItem) (acc : TickAcc) :
    (eatFold now w l acc).st.direction = acc.st.direction := by
  induction l generalizing acc with
  | nil => rfl
  | cons f fs ih =>
    show (eatFold now w fs (eatEffect now w f acc)).st.direction = _
    rw [ih, eatEffect_eq]

theorem eatFold_timers (now : ℤ) (w : Bool) (l : List FoodItem) (acc : TickAcc) :
    (eatFold now w l acc).timers = acc.timers ++ l.map (fun _ => unlockFor w) := by
  induction l generalizing acc with
  | nil => simp [eatFold]
  | cons f fs ih =>
    show (eatFold now w fs (eatEffect now w f acc)).timers = _
    rw [ih, eatEffect_eq]
    simp

theorem consumeAll_fst (near : FoodItem → Bool) (step : FoodItem → TickAcc → TickAcc)
    (l : List FoodItem) (acc : TickAcc) :
    (consumeAll near step l acc).1 = l.filter (fun f => ! near f) := by
  induction l generalizing acc with
  | nil => rfl
  | cons f fs ih =>
    by_cases h : near f = true
    · simp [consumeAll, h, List.filter_cons, ih]
    · simp only [Bool.not_eq_true] at h
      simp [consumeAll, h, List.filter_cons, ih]

theorem consumeAll_snd (near : FoodItem → Bool) (step : FoodItem → TickAcc → TickAcc)
    (l : List FoodItem) (acc : TickAcc) :
    (consumeAll near step l acc).2 = (l.filter near).foldl (fun a f => step f a) acc := by
  induction l generalizing acc with
  | nil => rfl
  | cons f fs ih =>
    by_cases h : near f = true
    · simp [consumeAll, h, List.filter_cons, ih]
    · simp only [Bool.not_eq_true] at h
      simp [consumeAll, h, List.filter_cons, ih]

theorem consumeAll_eatFold (now : ℤ) (w : Bool) (near : FoodItem → Bool)
    (l : List FoodItem) (acc : TickAcc) :
    (consumeAll near (eatEffect now w) l acc).2 = eatFold now w (l.filter near) acc := by
  rw [consumeAll_snd]
  rfl

theorem updatePhysics_pos (worldW worldH : ℚ) (keys : List String) (now : ℤ)
    (s : AppState) :
    (updatePhysics worldW worldH keys now s).state.pos =
      resolvedPos worldW worldH keys s := rfl

theorem updatePhysics_food (worldW worldH : ℚ) (keys : List String) (now : ℤ)
    (s : AppState) :
    (updatePhysics worldW worldH keys now s).state.food =
      s.food.filter (fun f => ! nearAfterMove worldW worldH keys s f) := by
  simp only [updatePhysics]
  split <;> simp [consumeAll_fst]

theorem updatePhysics_stats (worldW worldH : ℚ) (keys : List String) (now : ℤ)
    (s : AppState) :
    (updatePhysics worldW worldH keys now s).state.stats =
      (s.food.filter (nearAfterMove worldW worldH keys s)).foldl
        (fun st f => eatStats f st) s.stats := by
  simp only [updatePhysics]
  split <;> simp [consumeAll_eatFold, eatFold_st_stats]

theorem updatePhysics_capyState (worldW worldH : ℚ) (keys : List String) (now : ℤ)
    (s : AppState) :
    (updatePhysics worldW worldH keys now s).state.capyState =
      if candidateState worldW worldH keys s ≠ s.capyState then
        candidateState worldW worldH keys s
      else if (s.food.filter (nearAfterMove worldW worldH keys s)).isEmpty then
        s.capyState
      else CapyState.EATING := by
  simp only [updatePhysics]
  split
  · rfl
  · simp [consumeAll_eatFold, eatFold_st_capyState]

theorem updatePhysics_direction (worldW worldH : ℚ) (keys : List String) (now : ℤ)
    (s : AppState) :
    (updatePhysics worldW worldH keys now s).state.direction =
      (movePre keys s).newDirection := by
  simp only [updatePhysics]
  split <;> simp [consumeAll_eatFold, eatFold_st_direction] <;> rfl

theorem updatePhysics_timers (worldW worldH : ℚ) (keys : List String) (now : ℤ)
    (s : AppState) :
    (updatePhysics worldW worldH keys now s).timers =
      (s.food.filter (nearAfterMove worldW worldH keys s)).map
        (fun _ => unlockFor (inWaterAfterMove worldW worldH keys s)) := by
  simp only [updatePhysics]
  simp [consumeAll_eatFold, eatFold_timers]

theorem movePre_locked (keys : List String) (s : AppState) (h : lockedState s.capyState) :
    movePre keys s =
      { newX := s.pos.x, newY := s.pos.y, isMoving := false, newDirection := s.direction } := by
  simp only [movePre]
  rw [if_pos h]

theorem movePre_unlocked (keys : List String) (s : AppState)
    (h : ¬ lockedState s.capyState) :
    movePre keys s =
      { newX := (if hasKey keys ("ArrowLeft") || hasKey keys ("a") then
            s.pos.x - MOVEMENT_SPEED else s.pos.x)
          + (if hasKey keys ("ArrowRight") || hasKey keys ("d") then MOVEMENT_SPEED else 0),
        newY := (if hasKey keys ("ArrowUp") || hasKey keys ("w") then
            s.pos.y - MOVEMENT_SPEED else s.pos.y)
          + (if hasKey keys ("ArrowDown") || hasKey keys ("s") then MOVEMENT_SPEED else 0),
        isMoving := (hasKey keys ("ArrowLeft") || hasKey keys ("a"))
          || (hasKey keys ("ArrowRight") || hasKey keys ("d")),
        newDirection := if hasKey keys ("ArrowRight") || hasKey keys ("d") then
            Direction.right
          else if hasKey keys ("ArrowLeft") || hasKey keys ("a") then Direction.left
          else s.direction } := by
  simp only [movePre]
  rw [if_neg h]
  cases hU : hasKey keys ("ArrowUp") || hasKey keys ("w") <;>
    cases hD : hasKey keys ("ArrowDown") || hasKey keys ("s") <;>
    cases hL : hasKey keys ("ArrowLeft") || hasKey keys ("a") <;>
    cases hR : hasKey keys ("ArrowRight") || hasKey keys ("d") <;>
    simp

theorem moveStep_eq (worldW worldH : ℚ) (keys : List String) (s : AppState) :
    moveStep worldW worldH keys s =
      { newX := max 50 (min (worldW - 50) (movePre keys s).newX),
        newY := max 50 (min (worldH - 50) (movePre keys s).newY),
        isMoving := (movePre keys s).isMoving,
        newDirection := (movePre keys s).newDirection } := rfl

theorem moveStep_newX (worldW worldH : ℚ) (keys : List String) (s : AppState) :
    (moveStep worldW worldH keys s).newX =
      max 50 (min (worldW - 50) (movePre keys s).newX) := rfl

theorem moveStep_newY (worldW worldH : ℚ) (keys : List String) (s : AppState) :
    (moveStep worldW worldH keys s).newY =
      max 50 (min (worldH - 50) (movePre keys s).newY) := rfl

theorem moveStep_isMoving (worldW worldH : ℚ) (keys : List String) (s : AppState) :
    (moveStep worldW worldH keys s).isMoving = (movePre keys s).isMoving := rfl

theorem moveStep_newDirection (worldW worldH : ℚ) (keys : List String) (s : AppState) :
    (moveStep worldW worldH keys s).newDirection = (movePre keys s).newDirection := rfl

theorem clamp_bounds (lo hi v : ℚ) (h : lo ≤ hi) :
    lo ≤ max lo (min hi v) ∧ max lo (min hi v) ≤ hi :=
  ⟨le_max_left _ _, max_le h (min_le_left _ _)⟩

theorem clamp_eq_self (lo hi v : ℚ) (h1 : lo ≤ v) (h2 : v ≤ hi) :
    max lo (min hi v) = v := by
  rw [min_eq_right h2, max_eq_right h1]

/-- Each stat field lies in the documented range [0,100] (src/types.ts
comments on type Stats). -/
def statsInRange (st : Stats) : Prop :=
  0 ≤ st.hunger ∧ st.hunger ≤ 100 ∧ 0 ≤ st.chill ∧ st.chill ≤ 100 ∧
    0 ≤ st.energy ∧ st.energy ≤ 100

theorem clampAdd_mem (y d : ℚ) (hy : 0 ≤ y) (hd : 0 ≤ d) :
    0 ≤ min 100 (y + d) ∧ min 100 (y + d) ≤ 100 :=
  ⟨le_min (by norm_num) (by linarith), min_le_left _ _⟩

theorem clampSub_mem (y d : ℚ) (hy : y ≤ 100) (hd : 0 ≤ d) :
    0 ≤ max 0 (y - d) ∧ max 0 (y - d) ≤ 100 :=
  ⟨le_max_left _ _, max_le (by norm_num) (by linarith)⟩

theorem hungerStep_mem (prev : Stats) (h1 : prev.hunger ≤ 100) :
    0 ≤ hungerStep prev ∧ hungerStep prev ≤ 100 :=
  clampSub_mem _ _ h1 (by norm_num)

theorem energyStep_mem (c : CapyState) (prev : Stats) (h0 : 0 ≤ prev.energy)
    (h1 : prev.energy ≤ 100) :
    0 ≤ energyStep c prev ∧ energyStep c prev ≤ 100 := by
  unfold energyStep
  split_ifs
  · exact clampAdd_mem _ _ h0 (by norm_num)
  · exact clampSub_mem _ _ h1 (by norm_num)
  · exact ⟨h0, h1⟩

theorem chillRule1_mem (c : CapyState) (prev : Stats) (h0 : 0 ≤ prev.chill)
    (h1 : prev.chill ≤ 100) :
    0 ≤ chillRule1 c prev ∧ chillRule1 c prev ≤ 100 := by
  unfold chillRule1
  split_ifs
  · exact clampAdd_mem _ _ h0 (by norm_num)
  · exact ⟨h0, h1⟩

theorem chillRule2_mem (c : CapyState) (prev : Stats) (h0 : 0 ≤ prev.chill)
    (h1 : prev.chill ≤ 100) :
    0 ≤ chillRule2 c prev ∧ chillRule2 c prev ≤ 100 := by
  obtain ⟨ha, hb⟩ := chillRule1_mem c prev h0 h1
  unfold chillRule2
  split_ifs
  · exact clampAdd_mem _ _ ha (by norm_num)
  · exact ⟨ha, hb⟩

theorem chillStep_mem (c : CapyState) (prev : Stats) (h0 : 0 ≤ prev.chill)
    (h1 : prev.chill ≤ 100) :
    0 ≤ chillStep c prev ∧ chillStep c prev ≤ 100 := by
  obtain ⟨ha, hb⟩ := chillRule2_mem c prev h0 h1
  unfold chillStep
  split_ifs
  · exact clampSub_mem _ _ hb (by norm_num)
  · exact ⟨ha, hb⟩

theorem updateStats_in_range (c : CapyState) (prev : Stats) (h : statsInRange prev) :
    statsInRange (updateStats c prev) := by
  obtain ⟨h1, h2, h3, h4, h5, h6⟩ := h
  obtain ⟨ha, hb⟩ := hungerStep_mem prev h2
  obtain ⟨hc, hd⟩ := chillStep_mem c prev h3 h4
  obtain ⟨he, hf⟩ := energyStep_mem c prev h5 h6
  exact ⟨ha, hb, hc, hd, he, hf⟩

theorem eatStats_in_range (f : FoodItem) (st : Stats) (h : statsInRange st) :
    statsInRange (eatStats f st) := by
  obtain ⟨h1, h2, h3, h4, h5, h6⟩ := h
  have hh : 0 ≤ (if f.type = FoodType.WATERMELON then (30:ℚ) else 15) := by
    split_ifs <;> norm_num
  obtain ⟨ha, hb⟩ := clampAdd_mem st.hunger _ h1 hh
  obtain ⟨hc, hd⟩ := clampAdd_mem st.energy 5 h5 (by norm_num)
  exact ⟨ha, hb, h3, h4, hc, hd⟩

theorem foldl_eatStats_in_range (l : List FoodItem) (st : Stats) (h : statsInRange st) :
    statsInRange (l.foldl (fun a f => eatStats f a) st) := by
  induction l generalizing st with
  | nil => exact h
  | cons f fs ih => exact ih _ (eatStats_in_range f st h)

/-- A concrete tick for claim C1: an Idle creature pressing right, with an
orange 47 units ahead of the post-movement position (403, 300). -/
def cexStateC1 : AppState :=
  { pos := { x := 400, y := 300 }
    direction := Direction.right
    capyState := CapyState.IDLE
    stats := { hunger := 80, chill := 50, energy := 90 }
    food := [{ id := ("f1"), x := 450, y := 300, type := FoodType.ORANGE }]
    thought := none
    isAiLoading := false
    lastAiCallTime := 0 }

/-- C1 counterexample: in a tick that consumes a food item (it is removed and
hunger rises by 15) while the physics-derived candidate state (Walking)
differs from the pre-tick state (Idle), the tick ends in Walking, not Eating:
the classification write of src lines 129-131 is issued after the Eating
write of line 114 and wins, so Eating does not override the candidate. -/
theorem consumption_override_cex :
    cexStateC1.capyState = CapyState.IDLE ∧
    (updatePhysics 800 600 [("ArrowRight")] 0 cexStateC1).state.food = [] ∧
    (updatePhysics 800 600 [("ArrowRight")] 0 cexStateC1).state.stats.hunger = 95 ∧
    (updatePhysics 800 600 [("ArrowRight")] 0 cexStateC1).state.capyState =
      CapyState.WALKING := by
  refine ⟨?_, ?_, ?_, ?_⟩ <;> with_unfolding_all rfl

/-- C1 amended: every food item strictly within 50 units of the post-movement
position is removed from the collection in that tick, exactly once (the
survivors are exactly the items not in range), the stats are updated per
consumed item in collection order (hunger +30 for watermelon else +15, energy
+5, each capped at 100), and the state is set to Eating by the food pass; the
physics-derived candidate write, issued afterwards, overwrites Eating exactly
when the candidate differs from the pre-tick state, so the tick ends in
Eating only when the candidate equals the pre-tick state. -/
theorem consumption_amended (worldW worldH : ℚ) (keys : List String) (now : ℤ)
    (s : AppState) :
    (updatePhysics worldW worldH keys now s).state.food =
      s.food.filter (fun f => ! nearAfterMove worldW worldH keys s f) ∧
    (updatePhysics worldW worldH keys now s).state.stats =
      (s.food.filter (nearAfterMove worldW worldH keys s)).foldl
        (fun st f => eatStats f st) s.stats ∧
    (updatePhysics worldW worldH keys now s).state.capyState =
      (if candidateState worldW worldH keys s ≠ s.capyState then
        candidateState worldW worldH keys s
      else if (s.food.filter (nearAfterMove worldW worldH keys s)).isEmpty then
        s.capyState
      else CapyState.EATING) :=
  ⟨updatePhysics_food worldW worldH keys now s,
   updatePhysics_stats worldW worldH keys now s,
   updatePhysics_capyState worldW worldH keys now s⟩

/-- C2: after every tick the resolved position lies inside the 50-unit margin
of the world bounds (src lines 84-85), for any pressed keys and prior state,
whenever the world is at least 100 units in each dimension. -/
theorem tick_position_in_bounds (worldW worldH : ℚ) (keys : List String) (now : ℤ)
    (s : AppState) (hW : 100 ≤ worldW) (hH : 100 ≤ worldH) :
    50 ≤ (updatePhysics worldW worldH keys now s).state.pos.x ∧
    (updatePhysics worldW worldH keys now s).state.pos.x ≤ worldW - 50 ∧
    50 ≤ (updatePhysics worldW worldH keys now s).state.pos.y ∧
    (updatePhysics worldW worldH keys now s).state.pos.y ≤ worldH - 50 := by
  have hx := clamp_bounds 50 (worldW - 50) (movePre keys s).newX (by linarith)
  have hy := clamp_bounds 50 (worldH - 50) (movePre keys s).newY (by linarith)
  rw [updatePhysics_pos]
  exact ⟨hx.1, hx.2, hy.1, hy.2⟩

theorem tick_position_in_bounds_witness :
    (100:ℚ) ≤ 800 ∧ (100:ℚ) ≤ 600 ∧
    (50 ≤ (updatePhysics 800 600 [] 0 (initialState 800 600)).state.pos.x ∧
     (updatePhysics 800 600 [] 0 (initialState 800 600)).state.pos.x ≤ 800 - 50 ∧
     50 ≤ (updatePhysics 800 600 [] 0 (initialState 800 600)).state.pos.y ∧
     (updatePhysics 800 600 [] 0 (initialState 800 600)).state.pos.y ≤ 600 - 50) :=
  ⟨by norm_num, by norm_num,
   tick_position_in_bounds 800 600 [] 0 (initialState 800 600) (by norm_num) (by norm_num)⟩

/-- A concrete tick for claim C3: a Sleeping creature with an orange 20 units
away; no key is pressed. -/
def cexStateC3 : AppState :=
  { pos := { x := 400, y := 300 }
    direction := Direction.right
    capyState := CapyState.SLEEPING
    stats := { hunger := 80, chill := 50, energy := 90 }
    food := [{ id := ("f2"), x := 420, y := 300, type := FoodType.ORANGE }]
    thought := none
    isAiLoading := false
    lastAiCallTime := 0 }

/-- C3 counterexample: a tick taken while locked in Sleeping still writes the
behavioral state when a food item is in range — the collision pass of src
lines 106-127 is not guarded by the lock, so the state becomes Eating with no
explicit unlock involved. -/
theorem locked_state_interrupted_cex :
    cexStateC3.capyState = CapyState.SLEEPING ∧
    (updatePhysics 800 600 [] 0 cexStateC3).state.capyState = CapyState.EATING := by
  refine ⟨?_, ?_⟩ <;> with_unfolding_all rfl

/-- C3 amended: while the state is locked (Eating, Sleeping or Meditating) the
physics classifier performs no state write during the tick, but the
food-consumption path still does: the tick leaves the state unchanged exactly
when no food item is within range of the resolved position, and force-sets
Eating otherwise. -/
theorem locked_tick_state (worldW worldH : ℚ) (keys : List String) (now : ℤ)
    (s : AppState) (h : lockedState s.capyState) :
    (updatePhysics worldW worldH keys now s).state.capyState =
      (if (s.food.filter (nearAfterMove worldW worldH keys s)).isEmpty then s.capyState
       else CapyState.EATING) := by
  rw [updatePhysics_capyState]
  have hc : candidateState worldW worldH keys s = s.capyState := by
    unfold candidateState nextStateOf
    rw [if_pos h]
  rw [hc]
  simp

theorem locked_tick_state_witness :
    lockedState cexStateC3.capyState ∧
    (updatePhysics 800 600 [] 0 cexStateC3).state.capyState =
      (if ((cexStateC3.food).filter (nearAfterMove 800 600 [] cexStateC3)).isEmpty then
        cexStateC3.capyState
       else CapyState.EATING) :=
  ⟨Or.inl rfl, locked_tick_state 800 600 [] 0 cexStateC3 (Or.inl rfl)⟩

/-- The chill update as the amended claim C4 words it: first the meditation
rule with its own cap, then the swimming rule with its own cap, then, when
the hunger value already decayed this tick falls below 20, the hunger penalty
with its own floor. -/
def c4AmendedChill (c : CapyState) (prev : Stats) : ℚ :=
  let decayedHunger := max 0 (prev.hunger - 1/50)
  let afterMeditate := if c = CapyState.MEDITATING then min 100 (prev.chill + 1/10)
    else prev.chill
  let afterSwim := if c = CapyState.SWIMMING then min 100 (afterMeditate + 1/20)
    else afterMeditate
  if decayedHunger < 20 then max 0 (afterSwim - 1/20) else afterSwim

/-- C4 counterexample: the source clamps after each chill rule rather than
once after summing (at chill 100 while Meditating and starving the code gives
99.95 where the claim's single-clamp formula gives 100), and the hunger
threshold reads the hunger already decayed this tick rather than the previous
committed value (at previous hunger 20.01 the code applies the penalty, the
claim's formula does not). -/
theorem chill_formula_cex :
    (updateStats CapyState.MEDITATING { hunger := 10, chill := 100, energy := 50 }).chill
      = 1999/20 ∧
    chillClaimC4 CapyState.MEDITATING { hunger := 10, chill := 100, energy := 50 } = 100 ∧
    (updateStats CapyState.IDLE { hunger := 2001/100, chill := 50, energy := 50 }).chill
      = 999/20 ∧
    chillClaimC4 CapyState.IDLE { hunger := 2001/100, chill := 50, energy := 50 } = 50 := by
  refine ⟨?_, ?_, ?_, ?_⟩ <;> with_unfolding_all rfl

/-- C4 amended: each tick the new chill is obtained by applying, in source
order, every applicable rule with its own clamp — +0.1 capped at 100 when
Meditating, +0.05 capped at 100 when Swimming, and -0.05 floored at 0 when
the hunger value already decayed this tick is below 20. -/
theorem chill_update_amended (c : CapyState) (prev : Stats) :
    (updateStats c prev).chill = c4AmendedChill c prev := rfl

/-- C5: when the awaited text-generation call rejects, the thought is indeed
left unchanged and the failure is local, but the busy flag set by the
dispatch is NOT cleared: triggerThought has no try/catch, so the statements
after the await are skipped and isAiLoading stays true. -/
theorem thought_failure_leaves_busy (now : ℤ) (s : AppState) :
    (triggerThoughtStart (some CapyState.EATING) now s).2 = some CapyState.EATING ∧
    (triggerThoughtFinish now (Except.error ())
      ((triggerThoughtStart (some CapyState.EATING) now s).1)).thought = s.thought ∧
    (triggerThoughtFinish now (Except.error ())
      ((triggerThoughtStart (some CapyState.EATING) now s).1)).isAiLoading = true := by
  refine ⟨?_, ?_, ?_⟩ <;> simp [triggerThoughtStart, triggerThoughtFinish]

/-- C6: a thought request is dispatched to the generator exactly when it is
forced or at least 5000ms have elapsed since the last dispatch, and every
dispatch records the current time as the new last dispatch time (src
lines 42-47). -/
theorem thought_gate_dispatch (forcedState : Option CapyState) (now : ℤ) (s : AppState) :
    ((triggerThoughtStart forcedState now s).2.isSome = true ↔
      (forcedState.isSome = true ∨ API_DEBOUNCE_MS ≤ now - s.lastAiCallTime)) ∧
    ((triggerThoughtStart forcedState now s).2.isSome = true →
      (triggerThoughtStart forcedState now s).1.lastAiCallTime = now) := by
  unfold triggerThoughtStart
  split_ifs with h
  · obtain ⟨h1, h2⟩ := h
    subst h2
    constructor
    · simp only [Option.isSome_none, Bool.false_eq_true, false_iff, false_or]
      unfold API_DEBOUNCE_MS at h1 ⊢
      omega
    · intro hcontra
      simp at hcontra
  · rw [not_and_or] at h
    constructor
    · simp only [Option.isSome_some, true_iff]
      rcases h with h | h
      · right
        unfold API_DEBOUNCE_MS at h ⊢
        omega
      · left
        exact Option.isSome_iff_ne_none.mpr h
    · intro _
      rfl

theorem thought_gate_dispatch_witness :
    ((triggerThoughtStart (some CapyState.MEDITATING) 0 (initialState 800 600)).2.isSome
        = true ↔
      ((some CapyState.MEDITATING).isSome = true ∨
        API_DEBOUNCE_MS ≤ 0 - (initialState 800 600).lastAiCallTime)) ∧
    ((triggerThoughtStart (some CapyState.MEDITATING) 0 (initialState 800 600)).2.isSome
        = true →
      (triggerThoughtStart (some CapyState.MEDITATING) 0
        (initialState 800 600)).1.lastAiCallTime = 0) :=
  thought_gate_dispatch (some CapyState.MEDITATING) 0 (initialState 800 600)

/-- C7: every deferred unlock registered during a tick (src line 120) carries
a fixed 1000ms delay and the target Swimming when the position resolved that
tick was in water, else Idle; and firing it overwrites any current state,
including Sleeping and Meditating, with that target. -/
theorem deferred_unlock_spec (worldW worldH : ℚ) (keys : List String) (now : ℤ)
    (s : AppState) (t : DeferredUnlock)
    (ht : t ∈ (updatePhysics worldW worldH keys now s).timers) :
    t.delayMs = 1000 ∧
    t.target = (if inWaterAfterMove worldW worldH keys s then CapyState.SWIMMING
      else CapyState.IDLE) ∧
    fireUnlock t CapyState.SLEEPING = t.target ∧
    fireUnlock t CapyState.MEDITATING = t.target := by
  rw [updatePhysics_timers] at ht
  rcases List.mem_map.mp ht with ⟨g, hg, hEq⟩
  rw [← hEq]
  exact ⟨rfl, rfl, rfl, rfl⟩

/-- A concrete tick for the C7 witness: an Idle creature on land with an
orange 20 units away, so exactly one unlock is scheduled. -/
def witnessStateC7 : AppState :=
  { pos := { x := 400, y := 300 }
    direction := Direction.right
    capyState := CapyState.IDLE
    stats := { hunger := 80, chill := 50, energy := 90 }
    food := [{ id := ("f3"), x := 420, y := 300, type := FoodType.ORANGE }]
    thought := none
    isAiLoading := false
    lastAiCallTime := 0 }

theorem deferred_unlock_spec_witness :
    (unlockFor false).delayMs = 1000 ∧
    (unlockFor false).target = (if inWaterAfterMove 800 600 [] witnessStateC7 then
      CapyState.SWIMMING else CapyState.IDLE) ∧
    fireUnlock (unlockFor false) CapyState.SLEEPING = (unlockFor false).target ∧
    fireUnlock (unlockFor false) CapyState.MEDITATING = (unlockFor false).target :=
  deferred_unlock_spec 800 600 [] 0 witnessStateC7 (unlockFor false) (by
    have h : (updatePhysics 800 600 [] 0 witnessStateC7).timers = [unlockFor false] := by
      with_unfolding_all rfl
    rw [h]
    exact List.mem_singleton.mpr rfl)

/-- C8: from stats within [0,100] the stat-model tick, the consumption boost,
and the whole physics tick each yield stats within [0,100], for any state,
food item, keys and world. -/
theorem stats_always_in_range (c : CapyState) (f : FoodItem) (worldW worldH : ℚ)
    (keys : List String) (now : ℤ) (s : AppState) (h : statsInRange s.stats) :
    statsInRange (updateStats c s.stats) ∧ statsInRange (eatStats f s.stats) ∧
    statsInRange ((updatePhysics worldW worldH keys now s).state.stats) := by
  refine ⟨updateStats_in_range c s.stats h, eatStats_in_range f s.stats h, ?_⟩
  rw [updatePhysics_stats]
  exact foldl_eatStats_in_range _ _ h

theorem stats_always_in_range_witness :
    statsInRange (initialState 800 600).stats ∧
    (statsInRange (updateStats CapyState.SLEEPING (initialState 800 600).stats) ∧
     statsInRange (eatStats { id := ("f4"), x := 0, y := 0, type := FoodType.WATERMELON }
       (initialState 800 600).stats) ∧
     statsInRange ((updatePhysics 800 600 [] 0 (initialState 800 600)).state.stats)) :=
  ⟨by refine ⟨?_, ?_, ?_, ?_, ?_, ?_⟩ <;> norm_num [initialState],
   stats_always_in_range CapyState.SLEEPING
     { id := ("f4"), x := 0, y := 0, type := FoodType.WATERMELON } 800 600 [] 0
     (initialState 800 600)
     (by refine ⟨?_, ?_, ?_, ?_, ?_, ?_⟩ <;> norm_num [initialState])⟩

/-- A concrete tick for claim C9: an Idle creature on the top margin (y = 50)
pressing only ArrowUp; the clamp cancels the displacement. -/
def cexStateC9 : AppState :=
  { pos := { x := 400, y := 50 }
    direction := Direction.right
    capyState := CapyState.IDLE
    stats := { hunger := 80, chill := 50, energy := 90 }
    food := []
    thought := none
    isAiLoading := false
    lastAiCallTime := 0 }

/-- C9 counterexample: an unlocked tick with only a vertical key pressed and
a resolved position on land in which the position does NOT change — at the
top margin the clamp of src line 85 cancels the upward displacement, so the
claim that the position changes on such ticks fails (facing and the Idle
classification still hold). -/
theorem vertical_move_position_cex :
    cexStateC9.capyState = CapyState.IDLE ∧
    (updatePhysics 800 600 [("ArrowUp")] 0 cexStateC9).state.pos = cexStateC9.pos ∧
    (updatePhysics 800 600 [("ArrowUp")] 0 cexStateC9).state.direction =
      cexStateC9.direction ∧
    (updatePhysics 800 600 [("ArrowUp")] 0 cexStateC9).state.capyState =
      CapyState.IDLE := by
  refine ⟨?_, ?_, ?_, ?_⟩ <;> with_unfolding_all rfl

/-- C9 amended: for a tick in an unlocked state with no horizontal key
pressed, exactly one vertical direction pressed, the prior x inside the
margins and the displaced y inside the margins and on land, the position
changes by exactly the vertical displacement, the facing is unchanged, and
the derived candidate state is Idle (vertical-only movement is not counted
as moving). -/
theorem vertical_only_tick (worldW worldH : ℚ) (keys : List String) (now : ℤ)
    (s : AppState) (dlt : ℚ)
    (hlock : ¬ lockedState s.capyState)
    (hL : (hasKey keys ("ArrowLeft") || hasKey keys ("a")) = false)
    (hR : (hasKey keys ("ArrowRight") || hasKey keys ("d")) = false)
    (hud : ((hasKey keys ("ArrowUp") || hasKey keys ("w")) = true ∧
            (hasKey keys ("ArrowDown") || hasKey keys ("s")) = false ∧ dlt = -3) ∨
           ((hasKey keys ("ArrowUp") || hasKey keys ("w")) = false ∧
            (hasKey keys ("ArrowDown") || hasKey keys ("s")) = true ∧ dlt = 3))
    (hx1 : 50 ≤ s.pos.x) (hx2 : s.pos.x ≤ worldW - 50)
    (hy1 : 50 ≤ s.pos.y + dlt) (hy2 : s.pos.y + dlt ≤ worldH - 50)
    (hw : s.pos.y + dlt ≤ waterLevelY worldH) :
    (updatePhysics worldW worldH keys now s).state.pos.x = s.pos.x ∧
    (updatePhysics worldW worldH keys now s).state.pos.y = s.pos.y + dlt ∧
    (updatePhysics worldW worldH keys now s).state.pos.y ≠ s.pos.y ∧
    (updatePhysics worldW worldH keys now s).state.direction = s.direction ∧
    candidateState worldW worldH keys s = CapyState.IDLE := by
  have hm := movePre_unlocked keys s hlock
  have hdlt : dlt = -3 ∨ dlt = 3 := by
    rcases hud with ⟨_, _, h3⟩ | ⟨_, _, h3⟩
    · exact Or.inl h3
    · exact Or.inr h3
  have hmX : (movePre keys s).newX = s.pos.x := by
    rw [hm, hL, hR]
    simp
  have hmY : (movePre keys s).newY = s.pos.y + dlt := by
    rcases hud with ⟨hU, hD, h3⟩ | ⟨hU, hD, h3⟩ <;> subst h3 <;> rw [hm, hU, hD] <;>
      simp [MOVEMENT_SPEED] <;> ring
  have hmMov : (movePre keys s).isMoving = false := by
    rw [hm, hL, hR]
    simp
  have hmDir : (movePre keys s).newDirection = s.direction := by
    rw [hm, hL, hR]
    simp
  have hsx : (moveStep worldW worldH keys s).newX = s.pos.x := by
    rw [moveStep_newX, hmX, clamp_eq_self _ _ _ hx1 hx2]
  have hsy : (moveStep worldW worldH keys s).newY = s.pos.y + dlt := by
    rw [moveStep_newY, hmY, clamp_eq_self _ _ _ hy1 hy2]
  have hwater : inWaterAfterMove worldW worldH keys s = false := by
    unfold inWaterAfterMove resolvedPos
    simp only
    rw [hsy]
    exact decide_eq_false (not_lt.mpr hw)
  have hcand : candidateState worldW worldH keys s = CapyState.IDLE := by
    unfold candidateState nextStateOf
    rw [moveStep_isMoving, hmMov, hwater, if_neg hlock]
    simp
  refine ⟨?_, ?_, ?_, ?_, hcand⟩
  · rw [updatePhysics_pos]
    exact hsx
  · rw [updatePhysics_pos]
    exact hsy
  · rw [updatePhysics_pos]
    show (resolvedPos worldW worldH keys s).y ≠ s.pos.y
    have : (resolvedPos worldW worldH keys s).y = s.pos.y + dlt := hsy
    rw [this]
    rcases hdlt with h3 | h3 <;> subst h3 <;> intro hcontra <;> linarith
  · rw [updatePhysics_direction, hmDir]

/-- A concrete tick for the C9 and C10 witnesses: an Idle creature at
(400, 300) with no food. -/
def wStateC9 : AppState :=
  { pos := { x := 400, y := 300 }
    direction := Direction.right
    capyState := CapyState.IDLE
    stats := { hunger := 80, chill := 50, energy := 90 }
    food := []
    thought := none
    isAiLoading := false
    lastAiCallTime := 0 }

theorem vertical_only_tick_witness :
    ¬ lockedState wStateC9.capyState ∧
    ((updatePhysics 800 600 [("ArrowUp")] 0 wStateC9).state.pos.x = wStateC9.pos.x ∧
     (updatePhysics 800 600 [("ArrowUp")] 0 wStateC9).state.pos.y = wStateC9.pos.y + -3 ∧
     (updatePhysics 800 600 [("ArrowUp")] 0 wStateC9).state.pos.y ≠ wStateC9.pos.y ∧
     (updatePhysics 800 600 [("ArrowUp")] 0 wStateC9).state.direction =
       wStateC9.direction ∧
     candidateState 800 600 [("ArrowUp")] wStateC9 = CapyState.IDLE) :=
  ⟨by decide,
   vertical_only_tick 800 600 [("ArrowUp")] 0 wStateC9 (-3) (by decide) (by decide)
     (by decide) (Or.inl ⟨by decide, by decide, by norm_num⟩) (by norm_num [wStateC9])
     (by norm_num [wStateC9]) (by norm_num [wStateC9]) (by norm_num [wStateC9])
     (by norm_num [waterLevelY, wStateC9])⟩

/-- C10: with both horizontal keys held in an unlocked tick, the two
displacements cancel so x is unchanged (the prior x being inside the
margins), the facing ends right because the right-key branch runs last (src
lines 76-80), the tick counts as horizontal movement, and the derived
candidate state is Walking when the resolved position is on land. -/
theorem both_horizontal_tick (worldW worldH : ℚ) (keys : List String) (now : ℤ)
    (s : AppState)
    (hlock : ¬ lockedState s.capyState)
    (hL : (hasKey keys ("ArrowLeft") || hasKey keys ("a")) = true)
    (hR : (hasKey keys ("ArrowRight") || hasKey keys ("d")) = true)
    (hx1 : 50 ≤ s.pos.x) (hx2 : s.pos.x ≤ worldW - 50)
    (hw : (resolvedPos worldW worldH keys s).y ≤ waterLevelY worldH) :
    (updatePhysics worldW worldH keys now s).state.pos.x = s.pos.x ∧
    (updatePhysics worldW worldH keys now s).state.direction = Direction.right ∧
    candidateState worldW worldH keys s = CapyState.WALKING := by
  have hm := movePre_unlocked keys s hlock
  have hmX : (movePre keys s).newX = s.pos.x := by
    rw [hm, hL, hR]
    show s.pos.x - MOVEMENT_SPEED + MOVEMENT_SPEED = s.pos.x
    ring
  have hmMov : (movePre keys s).isMoving = true := by
    rw [hm, hL]
    simp
  have hmDir : (movePre keys s).newDirection = Direction.right := by
    rw [hm, hR]
    simp
  have hsx : (moveStep worldW worldH keys s).newX = s.pos.x := by
    rw [moveStep_newX, hmX, clamp_eq_self _ _ _ hx1 hx2]
  have hwater : inWaterAfterMove worldW worldH keys s = false := by
    unfold inWaterAfterMove
    exact decide_eq_false (not_lt.mpr hw)
  have hcand : candidateState worldW worldH keys s = CapyState.WALKING := by
    unfold candidateState nextStateOf
    rw [moveStep_isMoving, hmMov, hwater, if_neg hlock]
    simp
  refine ⟨?_, ?_, hcand⟩
  · rw [updatePhysics_pos]
    exact hsx
  · rw [updatePhysics_direction, hmDir]

theorem both_horizontal_tick_witness :
    ¬ lockedState wStateC9.capyState ∧
    ((updatePhysics 800 600 [("ArrowLeft"), ("ArrowRight")] 0 wStateC9).state.pos.x =
       wStateC9.pos.x ∧
     (updatePhysics 800 600 [("ArrowLeft"), ("ArrowRight")] 0 wStateC9).state.direction =
       Direction.right ∧
     candidateState 800 600 [("ArrowLeft"), ("ArrowRight")] wStateC9 =
       CapyState.WALKING) :=
  ⟨by decide,
   both_horizontal_tick 800 600 [("ArrowLeft"), ("ArrowRight")] 0 wStateC9 (by decide)
     (by decide) (by decide) (by norm_num [wStateC9]) (by norm_num [wStateC9]) (by
       have h : (resolvedPos 800 600 [("ArrowLeft"), ("ArrowRight")] wStateC9).y = 300 := by
         with_unfolding_all rfl
       rw [h]
       norm_num [waterLevelY])⟩

end CapySim
